import Mathlib

/-!
Verification of the nonlinear MPC controller in
`neural_control/baselines/mpc.py` against its natural-language specification.

The Python source is shallowly embedded below: numeric vectors become lists of
rationals (or structures with rational fields), Python exceptions become an
explicit error type threaded through `Except`, and the CasADi symbolic
constructions (cost, constraints, dynamics) become ordinary Lean functions of
the stage variables.
-/

set_option maxRecDepth 8000

namespace MpcSpec

/-- Python runtime exceptions (and the two typed errors named by the spec:
`configurationError` and `optimizationFailure`; the source never raises
either, which the theorems below make precise). -/
inductive PyErr where
  | nameError (n : String)
  | attributeError (a : String)
  | unboundLocalError (v : String)
  | valueError
  | configurationError
  | optimizationFailure
  deriving DecidableEq, Repr

instance {ε α : Type} [DecidableEq ε] [DecidableEq α] :
    DecidableEq (Except ε α) := fun a b =>
  match a, b with
  | .error e, .error f =>
      if h : e = f then .isTrue (by rw [h])
      else .isFalse (by intro hh; cases hh; exact h rfl)
  | .ok x, .ok y =>
      if h : x = y then .isTrue (by rw [h])
      else .isFalse (by intro hh; cases hh; exact h rfl)
  | .error _, .ok _ => .isFalse (by intro hh; cases hh)
  | .ok _, .error _ => .isFalse (by intro hh; cases hh)

/-- Elementwise difference of two Python numeric vectors (numpy broadcasting
is never exercised on unequal lengths by the code paths embedded here). -/
def vsub (a b : List ℚ) : List ℚ := List.zipWith (fun x y => x - y) a b

/-- Python list slice `xs[a:b]` for `0 ≤ a ≤ b`. -/
def pySlice (xs : List ℚ) (a b : ℕ) : List ℚ := (xs.drop a).take (b - a)

/-!
## Module-level initialization (`mpc.py` lines 1-29)

The file's imports are
`import casadi as ca`, `import numpy as np`, `import time`,
`from os import system`,
`from neural_control.environments.copter import copter_params`,
`from types import SimpleNamespace`.
The statements after the imports are executed in order; each statement first
looks up the names it references (in evaluation order) and then binds the
names it assigns.  We record exactly those reference/assignment lists.
-/

/-- One top-level statement: the module-scope names it reads, in evaluation
order, and the names it binds. -/
structure Stmt where
  refs : List String
  assigns : List String

/-- Names bound by the import statements of `mpc.py` (lines 4-10). -/
def importedNames : List String :=
  ["ca", "np", "time", "system", "copter_params", "SimpleNamespace"]

/-- The module-scope statements of `mpc.py` after the imports (lines 12-33),
with the names each references in evaluation order.  Line 14 evaluates
`torch.from_numpy(copter_params.translational_drag).to(device)`, whose first
name lookup is `torch`. -/
def mpcModuleStmts : List Stmt :=
  [ ⟨[], ["device"]⟩,                                      -- line 12
    ⟨["SimpleNamespace", "copter_params"], ["copter_params"]⟩,  -- line 13
    ⟨["torch", "copter_params", "device"], []⟩,             -- lines 14-16
    ⟨["torch", "copter_params", "device"], []⟩,             -- line 17
    ⟨["torch", "copter_params", "device"], []⟩,             -- lines 18-20
    ⟨["copter_params", "torch", "device"], ["inertia_vector"]⟩, -- lines 22-25
    ⟨["torch", "inertia_vector"], []⟩,                      -- line 26
    ⟨["torch"], ["kinv_ang_vel_tau"]⟩,                      -- line 29
    ⟨["object"], ["MPC"]⟩ ]                                 -- line 33 class stmt

/-- Execute the module body: each statement looks up its referenced names in
the environment; the first unbound lookup raises `NameError`; otherwise the
assigned names are added.  Builtins (`object`) are always resolvable. -/
def runModule (env : List String) : List Stmt → Except PyErr (List String)
  | [] => .ok env
  | s :: rest =>
      match s.refs.find? (fun n => !(env.contains n) && n != "object") with
      | some missing => .error (.nameError missing)
      | none => runModule (env ++ s.assigns) rest

/-!
## Construction: `MPC.__init__` (lines 38-121) and the head of
`MPC._initDynamics` (lines 129-133)

`__init__` has an `if/elif` on the model name with **no** `else`: an
unrecognized name silently skips the dimension block, and `_initDynamics()`
is still called.  `_initDynamics` dispatches again:
  * `"high_mpc"`  → `F = self.drone_dynamics_high_mpc(self._dt)` (ok);
  * `"simple_quad"` → `F = self.drone_dynamics_simple(self.dt)` — the
    attribute is `_dt`, `self.dt` is never assigned → `AttributeError`;
  * anything else (including the `"fixed_wing"` branch recognized by
    `__init__`) assigns no `F`, and the next line `fMap = F.map(...)`
    raises `UnboundLocalError` on `F`.
We record the instance attributes `__init__` assigns before calling
`_initDynamics`, and replay that dispatch.
-/

/-- Instance attributes assigned by `__init__` before `self._initDynamics()`
is reached (lines 42-119), per model name. -/
def initAttrs (model : String) : List String :=
  ["so_path", "dynamics_model", "_T", "_dt", "_N", "_gz"]
    ++ (if model = "high_mpc" ∨ model = "simple_quad" then
          ["_w_max_yaw", "_w_min_yaw", "_w_max_xy", "_w_min_xy",
           "_thrust_min", "_thrust_max", "_s_dim", "_u_dim"]
        else if model = "fixed_wing" then ["_s_dim", "_u_dim"]
        else [])
    ++ ["_Q_goal", "_Q_pen", "_Q_u", "_quad_s0", "_quad_u0"]

/-- The `F =` dispatch at the head of `_initDynamics` (lines 129-133): each
branch looks up the attribute it reads on `self`; a missing branch leaves the
local `F` unbound for the following `fMap = F.map(self._N, "openmp")`. -/
def initDynamicsFDispatch (model : String) (attrs : List String) :
    Except PyErr Unit :=
  if model = "high_mpc" then
    if attrs.contains "_dt" then .ok () else .error (.attributeError "_dt")
  else if model = "simple_quad" then
    if attrs.contains "dt" then .ok () else .error (.attributeError "dt")
  else .error (.unboundLocalError "F")

/-- Constructing `MPC(T, dt, dynamics=model)`: run `__init__`'s attribute
assignments, then the `_initDynamics` dispatch; on success the object's
attribute list is available. -/
def mpcConstruct (model : String) : Except PyErr (List String) :=
  (initDynamicsFDispatch model (initAttrs model)).map fun _ => initAttrs model

/-- Initial state guess `self._quad_s0` (line 118). -/
def quadS0 : List ℚ := [1, 0, 0, 1, 0, 0, 0, 0, 0, 0]

/-- Initial control guess `self._quad_u0` (line 119). -/
def quadU0 : List ℚ := [981/100, 0, 0, 0]

/-- The static warm-start seed `self.nlp_w0` built by `_initDynamics`
(lines 191, 203, 232): `_quad_s0`, then per stage `_quad_u0 ++ _quad_s0`. -/
def nlpW0Init (N : ℕ) : List ℚ :=
  (List.range N).foldl (fun acc _ => acc ++ quadU0 ++ quadS0) quadS0

/-!
## Full-model dynamics (`get_dynamics_high_mpc`, lines 330-369) and the RK4
discrete map (`drone_dynamics_high_mpc`, lines 308-328)
-/

/-- The 10-dimensional full-model state (position, quaternion, velocity). -/
@[ext]
structure QuadState where
  px : ℚ
  py : ℚ
  pz : ℚ
  qw : ℚ
  qx : ℚ
  qy : ℚ
  qz : ℚ
  vx : ℚ
  vy : ℚ
  vz : ℚ
  deriving DecidableEq, Repr

/-- The 4-dimensional control (collective thrust, body rates). -/
structure QuadCtrl where
  thrust : ℚ
  wx : ℚ
  wy : ℚ
  wz : ℚ
  deriving DecidableEq, Repr

instance : Add QuadState :=
  ⟨fun a b =>
    ⟨a.px + b.px, a.py + b.py, a.pz + b.pz, a.qw + b.qw, a.qx + b.qx,
     a.qy + b.qy, a.qz + b.qz, a.vx + b.vx, a.vy + b.vy, a.vz + b.vz⟩⟩

instance : SMul ℚ QuadState :=
  ⟨fun c a =>
    ⟨c * a.px, c * a.py, c * a.pz, c * a.qw, c * a.qx, c * a.qy, c * a.qz,
     c * a.vx, c * a.vy, c * a.vz⟩⟩

/-- Gravity constant `self._gz = 9.81` (line 52). -/
def gz : ℚ := 981 / 100

/-- The continuous-time derivative `x_dot` of `get_dynamics_high_mpc`
(lines 355-363), written field by field exactly as in the source. -/
def droneDerivHighMpc (x : QuadState) (u : QuadCtrl) : QuadState :=
  ⟨x.vx, x.vy, x.vz,
   0.5 * (-u.wx * x.qx - u.wy * x.qy - u.wz * x.qz),
   0.5 * (u.wx * x.qw + u.wz * x.qy - u.wy * x.qz),
   0.5 * (u.wy * x.qw - u.wz * x.qx + u.wx * x.qz),
   0.5 * (u.wz * x.qw + u.wy * x.qx - u.wx * x.qy),
   2 * (x.qw * x.qy + x.qx * x.qz) * u.thrust,
   2 * (x.qy * x.qz - x.qw * x.qx) * u.thrust,
   (x.qw * x.qw - x.qx * x.qx - x.qy * x.qy + x.qz * x.qz) * u.thrust - gz⟩

/-- One RK4 sub-step exactly as coded in `drone_dynamics_high_mpc`
(lines 320-325): slopes pre-scaled by `DT`, update `X + (k1+2k2+2k3+k4)/6`. -/
def rk4Step (f : QuadState → QuadCtrl → QuadState) (DT : ℚ)
    (X : QuadState) (U : QuadCtrl) : QuadState :=
  let k1 := DT • f X U
  let k2 := DT • f (X + (0.5 : ℚ) • k1) U
  let k3 := DT • f (X + (0.5 : ℚ) • k2) U
  let k4 := DT • f (X + k3) U
  X + (1 / 6 : ℚ) • (k1 + (2 : ℚ) • k2 + (2 : ℚ) • k3 + k4)

/-- The discrete transition map `F` returned by `drone_dynamics_high_mpc dt`
(lines 308-328): `M = 4` refinement sub-steps of size `DT = dt / M`. -/
def droneDynamicsHighMpc (dt : ℚ) (X0 : QuadState) (U : QuadCtrl) :
    QuadState :=
  let M : ℕ := 4
  let DT := dt / (M : ℚ)
  (List.range M).foldl (fun X _ => rk4Step droneDerivHighMpc DT X U) X0

/-!
Spec-side formulation for C6: quaternion algebra and the classical
(unscaled-slope) RK4 scheme, to be compared with the source definitions.
-/

/-- A quaternion with rational coefficients. -/
structure Quat where
  w : ℚ
  x : ℚ
  y : ℚ
  z : ℚ

/-- Hamilton product of quaternions. -/
def Quat.mul (p q : Quat) : Quat :=
  ⟨p.w * q.w - p.x * q.x - p.y * q.y - p.z * q.z,
   p.w * q.x + p.x * q.w + p.y * q.z - p.z * q.y,
   p.w * q.y - p.x * q.z + p.y * q.w + p.z * q.x,
   p.w * q.z + p.x * q.y - p.y * q.x + p.z * q.w⟩

/-- Quaternion conjugate. -/
def Quat.conj (q : Quat) : Quat := ⟨q.w, -q.x, -q.y, -q.z⟩

/-- Rotation of a 3-vector by a quaternion via the sandwich `q ⊗ (0,v) ⊗ q̄`
(vector part). -/
def rotateByQuat (q : Quat) (v : ℚ × ℚ × ℚ) : ℚ × ℚ × ℚ :=
  let r := (q.mul ⟨0, v.1, v.2.1, v.2.2⟩).mul q.conj
  (r.x, r.y, r.z)

/-- Modelled from the spec wording of C6: position derivative is the
velocity, quaternion derivative is `½ · q ⊗ (0, ω)`, acceleration is the
thrust rotated into the world frame by the quaternion minus gravity on z. -/
def specContinuousDeriv (s : QuadState) (u : QuadCtrl) : QuadState :=
  let q : Quat := ⟨s.qw, s.qx, s.qy, s.qz⟩
  let qd := q.mul ⟨0, u.wx, u.wy, u.wz⟩
  let a := rotateByQuat q (0, 0, u.thrust)
  ⟨s.vx, s.vy, s.vz, qd.w / 2, qd.x / 2, qd.y / 2, qd.z / 2,
   a.1, a.2.1, a.2.2 - gz⟩

/-- Classical 4th-order Runge-Kutta with unscaled slopes and step `h`. -/
def classicalRK4 (f : QuadState → QuadCtrl → QuadState) (h : ℚ)
    (X : QuadState) (U : QuadCtrl) : QuadState :=
  let m1 := f X U
  let m2 := f (X + (h / 2) • m1) U
  let m3 := f (X + (h / 2) • m2) U
  let m4 := f (X + h • m3) U
  X + (h / 6) • (m1 + (2 : ℚ) • m2 + (2 : ℚ) • m3 + m4)

/-!
## Simplified-model dynamics (`drone_dynamics_simple`, lines 371-433)

The trigonometric routines of the symbolic backend are abstracted as an
oracle of two functions; the mass constant comes from
`copter_params.mass`, whose defining module is not part of the sources
here, so it stays a parameter.
-/

/-- The 12-dimensional simplified-model state (position, Euler attitude,
linear velocity, angular velocity), line 387. -/
structure SimpleState where
  px : ℚ
  py : ℚ
  pz : ℚ
  ax : ℚ
  ay : ℚ
  az : ℚ
  vx : ℚ
  vy : ℚ
  vz : ℚ
  avx : ℚ
  avy : ℚ
  avz : ℚ
  deriving DecidableEq, Repr

/-- Abstract cosine/sine routines standing for `ca.cos` / `ca.sin`. -/
structure TrigOracle where
  cosF : ℚ → ℚ
  sinF : ℚ → ℚ

/-- Source `body_rates` (line 400): computed by the source but never used in the
returned transition. -/
def bodyRatesSimple (u : QuadCtrl) : List ℚ :=
  [u.wx - 0.5, u.wy - 0.5, u.wz - 0.5]

/-- The transition returned by `drone_dynamics_simple dt` (lines 399-433),
written statement by statement as in the source.  Note the output stacks
the scalar zeros `att_new` and `av_new` (lines 424-430), so it has 8
entries, not 12. -/
def droneDynamicsSimple (tr : TrigOracle) (mass dt : ℚ)
    (x : SimpleState) (u : QuadCtrl) : List ℚ :=
  let thrust_scaled := u.thrust * 10 - 5 + 7
  let Cy := tr.cosF x.az
  let Sy := tr.sinF x.az
  let Cp := tr.cosF x.ay
  let Sp := tr.sinF x.ay
  let Cr := tr.cosF x.ax
  let Sr := tr.sinF x.ax
  let const := thrust_scaled / mass
  let acc_x := (Cy * Sp * Cr + Sr * Sy) * const
  let acc_y := (Cr * Sy * Sp - Cy * Sr) * const
  let acc_z := (Cr * Cp) * const - 981 / 100
  let px_new := x.px + 0.5 * dt * dt * acc_x + 0.5 * dt * x.vx
  let py_new := x.py + 0.5 * dt * dt * acc_y + 0.5 * dt * x.vy
  let pz_new := x.pz + 0.5 * dt * dt * acc_z + 0.5 * dt * x.vz
  let vx_new := x.vx + dt * acc_x
  let vy_new := x.vy + dt * acc_y
  let vz_new := x.vz + dt * acc_z
  let att_new : ℚ := 0
  let av_new : ℚ := 0
  [px_new, py_new, pz_new, att_new, vx_new, vy_new, vz_new, av_new]

/-- Elementary rotation about x by angle `t` (spec side). -/
def rotXf (tr : TrigOracle) (t : ℚ) (v : ℚ × ℚ × ℚ) : ℚ × ℚ × ℚ :=
  (v.1, tr.cosF t * v.2.1 - tr.sinF t * v.2.2,
   tr.sinF t * v.2.1 + tr.cosF t * v.2.2)

/-- Elementary rotation about y by angle `t` (spec side). -/
def rotYf (tr : TrigOracle) (t : ℚ) (v : ℚ × ℚ × ℚ) : ℚ × ℚ × ℚ :=
  (tr.cosF t * v.1 + tr.sinF t * v.2.2, v.2.1,
   -tr.sinF t * v.1 + tr.cosF t * v.2.2)

/-- Elementary rotation about z by angle `t` (spec side). -/
def rotZf (tr : TrigOracle) (t : ℚ) (v : ℚ × ℚ × ℚ) : ℚ × ℚ × ℚ :=
  (tr.cosF t * v.1 - tr.sinF t * v.2.1,
   tr.sinF t * v.1 + tr.cosF t * v.2.1, v.2.2)

/-- The thrust rescaling of line 399. -/
def specThrustScaled (u : QuadCtrl) : ℚ := u.thrust * 10 - 5 + 7

/-- Modelled from the spec wording of C9: acceleration obtained by rotating
the scaled thrust (along body z, divided by the vehicle mass) through the
z-y-x Euler rotation of the attitude angles, minus gravity on z. -/
def specAccSimple (tr : TrigOracle) (mass : ℚ) (x : SimpleState)
    (u : QuadCtrl) : ℚ × ℚ × ℚ :=
  let w := rotZf tr x.az (rotYf tr x.ay (rotXf tr x.ax
    (0, 0, specThrustScaled u / mass)))
  (w.1, w.2.1, w.2.2 - 981 / 100)

/-!
## NLP builder (`_initDynamics`, lines 140-239), full model: `s_dim = 10`,
`u_dim = 4`, parameter length `10 + 13·N + 10`.
-/

/-- Function `np.diag w`: the square diagonal matrix with diagonal `w`, as rows. -/
def npDiag (w : List ℚ) : List (List ℚ) :=
  (List.range w.length).map fun i =>
    (List.range w.length).map fun j => if i = j then w.get! i else 0

/-- The quadratic form `vᵀ · M · v` of lines 145-147. -/
def quadForm (M : List (List ℚ)) (v : List ℚ) : ℚ :=
  (List.zipWith (fun vi row => vi * (List.zipWith (· * ·) row v).sum) v M).sum

/-- Matrix `self._Q_goal` (lines 83-96). -/
def qGoalMat : List (List ℚ) := npDiag [100, 100, 100, 0, 0, 0, 0, 10, 10, 10]

/-- Matrix `self._Q_pen` (lines 99-112). -/
def qPenMat : List (List ℚ) := npDiag [0, 100, 100, 0, 0, 0, 0, 0, 10, 10]

/-- Matrix `self._Q_u` (line 115). -/
def qUMat : List (List ℚ) := npDiag [1/10, 1/10, 1/10, 1/10]

/-- Cost `f_cost_goal` (line 150). -/
def costGoal (d : List ℚ) : ℚ := quadForm qGoalMat d

/-- Cost `f_cost_gap` (line 151). -/
def costGap (d : List ℚ) : ℚ := quadForm qPenMat d

/-- Cost `f_cost_u` (line 152). -/
def costU (d : List ℚ) : ℚ := quadForm qUMat d

/-- The hover control `[self._gz, 0, 0, 0]` subtracted at line 225. -/
def hoverCtrl : List ℚ := [981/100, 0, 0, 0]

/-- The objective `self.mpc_obj` accumulated by the loop of lines 200-228,
with `X k`/`U k` the stage states/controls and `P` the parameter vector. -/
def mpcObjSrc (N : ℕ) (X U : ℕ → List ℚ) (P : List ℚ) : ℚ :=
  (List.range N).foldl
    (fun acc k =>
      let cost_goal_k : ℚ :=
        if N - 1 ≤ k then
          costGoal (vsub (X (k + 1)) (P.drop (10 + 13 * N)))
        else 0
      let cost_gap_k : ℚ :=
        if N - 1 ≤ k then 0
        else
          costGap (vsub (X (k + 1))
            (pySlice P (10 + 13 * k) (10 + 13 * (k + 1) - 3)))
      let cost_u_k := costU (vsub (U k) hoverCtrl)
      acc + cost_goal_k + cost_u_k + cost_gap_k)
    0

/-- Spec side (C7): the `k`-th interior slice of the reference window — the
first 10 entries of the `k`-th 13-wide parameter block after the current
state. -/
def refSliceSpec (P : List ℚ) (k : ℕ) : List ℚ := (P.drop (10 + 13 * k)).take 10

/-- Spec side (C7): the terminal goal state — the 10 entries after the
reference window. -/
def goalSpec (N : ℕ) (P : List ℚ) : List ℚ := (P.drop (10 + 13 * N)).take 10

/-- Spec side (C7): the undiscounted sum of stage costs as the claim states
them. -/
def mpcObjSpec (N : ℕ) (X U : ℕ → List ℚ) (P : List ℚ) : ℚ :=
  ∑ k ∈ Finset.range N,
    ((if N - 1 ≤ k then quadForm qGoalMat (vsub (X (k + 1)) (goalSpec N P))
      else quadForm qPenMat (vsub (X (k + 1)) (refSliceSpec P k)))
      + quadForm qUMat (vsub (U k) hoverCtrl))

/-- Band `g_min` (line 178): the zero lower band of one equality constraint. -/
def gMin : List ℚ := List.replicate 10 0

/-- Band `g_max` (line 179): the zero upper band of one equality constraint. -/
def gMax : List ℚ := List.replicate 10 0

/-- Constraints `self.nlp_g` as accumulated at lines 196 and 237: the initial-condition
constraint, then per stage the transition residual, with `f` the discrete
transition map `fMap` applies columnwise. -/
def nlpGSrc (N : ℕ) (f : List ℚ → List ℚ → List ℚ) (X U : ℕ → List ℚ)
    (P : List ℚ) : List (List ℚ) :=
  (List.range N).foldl
    (fun g k => g ++ [vsub (f (X k) (U k)) (X (k + 1))])
    [vsub (X 0) (pySlice P 0 10)]

/-- Bounds `self.lbg` as accumulated at lines 197 and 238. -/
def lbgSrc (N : ℕ) : List ℚ :=
  (List.range N).foldl (fun acc _ => acc ++ gMin) gMin

/-- Bounds `self.ubg` as accumulated at lines 198 and 239. -/
def ubgSrc (N : ℕ) : List ℚ :=
  (List.range N).foldl (fun acc _ => acc ++ gMax) gMax

/-!
## `MPC.solve` (lines 264-306), full model

The external interior-point call `self.solver(...)` is an oracle returning
a solution vector together with its convergence report; the source reads
only the vector (`self.sol['x']`) and never the report.
-/

/-- What the external solver returns: the solution vector `sol['x']` and
the convergence flag it reports (available via `solver.stats()`). -/
structure IpoptRet where
  x : List ℚ
  success : Bool

/-- Python `end[3:7] = [0 for _ in range(4)]` (line 272) and the columnwise
`middle_ref_states[:, 3:7] = 0` (line 275) applied to one 13-entry row. -/
def zeroQuatRow (l : List ℚ) : List ℚ := l.take 3 ++ [0, 0, 0, 0] ++ l.drop 7

/-- Python `xs[-n:]`. -/
def pyLastSlice (xs : List ℚ) (n : ℕ) : List ℚ := xs.drop (xs.length - n)

/-- Split `l` into `l.length / c` rows of width `c`. -/
def chunkRows (c : ℕ) (l : List ℚ) : List (List ℚ) :=
  (List.range (l.length / c)).map fun i => (l.drop (i * c)).take c

/-- numpy `reshape((r, c))`: fails with `ValueError` unless the size is
exactly `r · c`. -/
def reshapeRows (r c : ℕ) (l : List ℚ) : Except PyErr (List (List ℚ)) :=
  if l.length = r * c then .ok (chunkRows c l) else .error .valueError

/-- numpy `reshape((-1, c))`: the first dimension is inferred; fails with
`ValueError` unless `c` divides the size. -/
def reshapeInfer (c : ℕ) (l : List ℚ) : Except PyErr (List (List ℚ)) :=
  if l.length % c = 0 then .ok (chunkRows c l) else .error .valueError

/-- The full-model preprocessing and packing of `ref_states`
(lines 269-276): head kept, tail quaternion-zeroed, middle reshaped to
`(10, 13)` (the horizon is hard-coded here) with quaternion columns zeroed,
then re-concatenated. -/
def highMpcParamPack (ref : List ℚ) : Except PyErr (List ℚ) :=
  let start := ref.take 10
  let endSlice := zeroQuatRow (pyLastSlice ref 10)
  let middle := (ref.drop 10).take (ref.length - 20)
  match reshapeRows 10 13 middle with
  | .error e => .error e
  | .ok rows => .ok (start ++ (rows.map zeroQuatRow).flatten ++ endSlice)

/-- The warm-start overwrite of lines 291-293:
`nlp_w0 = sol_x0[s+u : 2(s+u)] + sol_x0[s+u:]`. -/
def warmStartUpdate (s u : ℕ) (solX : List ℚ) : List ℚ :=
  pySlice solX (s + u) (2 * (s + u)) ++ solX.drop (s + u)

/-- The `[x_i, u_i]` block of stage `i` in the stacked decision vector. -/
def stageBlock (s u i : ℕ) (w : List ℚ) : List ℚ :=
  pySlice w (i * (s + u)) ((i + 1) * (s + u))

/-- Method `MPC.solve` for the full model (lines 264-306): pack the parameters,
call the external solver with the warm-start cache as initial guess, slice
out the first control, overwrite the cache, reshape the predicted
trajectory.  Returns `(opt_u, x0_array, new nlp_w0)`. -/
def solveHighMpc (solverCall : List ℚ → List ℚ → IpoptRet)
    (cache ref : List ℚ) : Except PyErr (List ℚ × List (List ℚ) × List ℚ) :=
  match highMpcParamPack ref with
  | .error e => .error e
  | .ok p =>
      let sol := solverCall cache p
      let solX := sol.x
      let optU := pySlice solX 10 (10 + 4)
      let newCache := warmStartUpdate 10 4 solX
      match reshapeInfer 14 (solX.take (solX.length - 10)) with
      | .error e => .error e
      | .ok x0arr => .ok (optU, x0arr, newCache)

/-- A solver oracle reporting non-convergence while still returning a
(valid-length) iterate, as the interior-point backend does. -/
def failingSolver : List ℚ → List ℚ → IpoptRet :=
  fun _ _ => ⟨List.replicate 150 0, false⟩

/-- The ramp solution vector `0, 1, …, 149`, whose stage blocks are all
distinct. -/
def rampSol : List ℚ := (List.range 150).map (fun n => (n : ℚ))

/-- A solver oracle returning the ramp vector and reporting convergence. -/
def rampSolver : List ℚ → List ℚ → IpoptRet := fun _ _ => ⟨rampSol, true⟩

/-- A well-formed (length-150) reference window of ones. -/
def refOnes : List ℚ := List.replicate 150 1

/-- A well-formed (length-150) reference window of twos. -/
def refTwos : List ℚ := List.replicate 150 2

lemma quadState_add_def (a b : QuadState) :
    a + b =
      ⟨a.px + b.px, a.py + b.py, a.pz + b.pz, a.qw + b.qw, a.qx + b.qx,
       a.qy + b.qy, a.qz + b.qz, a.vx + b.vx, a.vy + b.vy, a.vz + b.vz⟩ :=
  rfl

lemma quadState_smul_def (c : ℚ) (a : QuadState) :
    c • a =
      ⟨c * a.px, c * a.py, c * a.pz, c * a.qw, c * a.qx, c * a.qy, c * a.qz,
       c * a.vx, c * a.vy, c * a.vz⟩ :=
  rfl

/-- The source derivative equals the spec-worded quaternion formulation. -/
lemma droneDerivHighMpc_eq_spec : droneDerivHighMpc = specContinuousDeriv := by
  funext x u
  ext <;>
    simp only [droneDerivHighMpc, specContinuousDeriv, Quat.mul, Quat.conj,
      rotateByQuat] <;>
    ring

/-- The source RK4 sub-step (slopes pre-scaled by `DT`) equals the classical
scheme with step `DT`. -/
lemma rk4Step_eq_classicalRK4 (f : QuadState → QuadCtrl → QuadState)
    (h : ℚ) (X : QuadState) (U : QuadCtrl) :
    rk4Step f h X U = classicalRK4 f h X U := by
  simp only [rk4Step, classicalRK4]
  have e1 : X + (0.5 : ℚ) • (h • f X U) = X + (h / 2) • f X U := by
    ext <;> simp only [quadState_add_def, quadState_smul_def] <;> ring
  rw [e1]
  have e2 :
      X + (0.5 : ℚ) • (h • f (X + (h / 2) • f X U) U) =
        X + (h / 2) • f (X + (h / 2) • f X U) U := by
    ext <;> simp only [quadState_add_def, quadState_smul_def] <;> ring
  rw [e2]
  ext <;> simp only [quadState_add_def, quadState_smul_def] <;> ring

/-- Truncating the right argument of `zipWith` beyond the left argument's
length changes nothing. -/
lemma zipWith_take_of_le (f : ℚ → ℚ → ℚ) :
    ∀ (a b : List ℚ) (n : ℕ), a.length ≤ n →
      List.zipWith f a b = List.zipWith f a (b.take n)
  | [], _, _, _ => by simp
  | _ :: _, [], _, _ => by simp
  | x :: xs, y :: ys, n, h => by
    cases n with
    | zero => simp at h
    | succ m =>
        simp only [List.take_succ_cons, List.zipWith_cons_cons,
          List.cons.injEq, true_and]
        exact zipWith_take_of_le f xs ys m (by simpa using h)

/-- A fold that only accumulates three summands per index is the sum over
the range. -/
lemma foldl_add3_range (a b c : ℕ → ℚ) (N : ℕ) :
    (List.range N).foldl (fun acc k => acc + a k + b k + c k) 0 =
      ∑ k ∈ Finset.range N, (a k + b k + c k) := by
  induction N with
  | zero => simp
  | succ n ih =>
      rw [List.range_succ, List.foldl_append, ih, Finset.sum_range_succ]
      simp only [List.foldl_cons, List.foldl_nil]
      ring

/-- On a well-formed (length-150) reference window the full-model packing
succeeds and produces head ++ zero-quaternion rows ++ zero-quaternion
tail. -/
lemma pack_ok (ref : List ℚ) (h : ref.length = 150) :
    highMpcParamPack ref =
      .ok (ref.take 10 ++
        ((chunkRows 13 ((ref.drop 10).take 130)).map zeroQuatRow).flatten ++
        zeroQuatRow (ref.drop 140)) := by
  have h20 : ref.length - 20 = 130 := by omega
  have h10 : ref.length - 10 = 140 := by omega
  have hm : ((ref.drop 10).take 130).length = 130 := by
    simp [List.length_take, List.length_drop, h]
  unfold highMpcParamPack pyLastSlice reshapeRows
  rw [h20, h10]
  simp [hm]

/-- Every row produced by chunking a 130-entry list into width-13 rows has
exactly 13 entries. -/
lemma chunkRows_length_13 (m : List ℚ) (hm : m.length = 130) :
    ∀ r ∈ chunkRows 13 m, r.length = 13 := by
  intro r hr
  simp only [chunkRows, hm, List.mem_map, List.mem_range] at hr
  obtain ⟨i, hi, rfl⟩ := hr
  simp only [List.length_take, List.length_drop, hm]
  omega

/-- Mapping `zeroQuatRow` preserves the row width 13. -/
lemma zeroQuatRow_length (r : List ℚ) (hr : r.length = 13) :
    (zeroQuatRow r).length = 13 := by
  simp [zeroQuatRow, List.length_take, List.length_drop, hr]

/-- Dropping `w · k` entries from a concatenation of width-`w` rows drops
the first `k` rows. -/
lemma flatten_drop_width (w : ℕ) :
    ∀ (rows : List (List ℚ)), (∀ r ∈ rows, r.length = w) → ∀ k,
      rows.flatten.drop (w * k) = (rows.drop k).flatten := by
  intro rows hw k
  induction k generalizing rows with
  | zero => simp
  | succ n ih =>
      cases rows with
      | nil => simp
      | cons r rest =>
          rw [List.flatten_cons]
          have hr : r.length = w := hw r (by simp)
          rw [show w * (n + 1) = r.length + w * n from by rw [hr]; ring,
            List.drop_append, ih rest (fun s hs => hw s (by simp [hs]))]
          rfl

/-- The total width of a concatenation of width-`w` rows. -/
lemma flatten_length_width (w : ℕ) :
    ∀ (rows : List (List ℚ)), (∀ r ∈ rows, r.length = w) →
      rows.flatten.length = w * rows.length := by
  intro rows hw
  induction rows with
  | nil => simp
  | cons r rest ih =>
      simp only [List.flatten_cons, List.length_append, List.length_cons,
        hw r (by simp), ih (fun s hs => hw s (by simp [hs]))]
      ring

/-- Dropping the 3 passthrough entries of a zero-quaternion row exposes the
four zeroed slots. -/
lemma zeroQuatRow_drop3 (r : List ℚ) (hr : 3 ≤ r.length) :
    (zeroQuatRow r).drop 3 = [0, 0, 0, 0] ++ r.drop 7 := by
  unfold zeroQuatRow
  have h3 : (r.take 3).length = 3 := by
    simp [List.length_take]
    omega
  rw [List.drop_append_of_le_length (by simp [List.length_append, h3]),
    List.drop_left' h3]

/-- Taking 4 entries from a list starting with four zeros. -/
lemma take4_zeros (X : List ℚ) :
    (([0, 0, 0, 0] : List ℚ) ++ X).take 4 = [0, 0, 0, 0] := by
  rw [List.take_append_of_le_length (by simp)]
  rfl

end MpcSpec

namespace MpcSpec

/-- C10: importing the MPC module always raises `NameError` on the name
`torch`, which is referenced at module scope (line 14) but never imported;
in particular execution never reaches the `class MPC` statement, so the
class can never be constructed through this module. -/
theorem import_raises_NameError_torch :
    runModule importedNames mpcModuleStmts = .error (.nameError "torch") := by
  rfl

/-- C6: for the full model, the discrete transition returned by
`drone_dynamics_high_mpc dt` equals four composed sub-steps of classical
4th-order Runge-Kutta with sub-step size `dt/4`, applied to the continuous
derivative whose quaternion part is `½ · q ⊗ (0, ω)`, whose position
derivative is the velocity, and whose acceleration is the thrust rotated
into the world frame by the quaternion minus gravity on the z axis. -/
theorem highMpc_transition_is_four_classical_rk4_substeps
    (dt : ℚ) (X : QuadState) (U : QuadCtrl) :
    droneDynamicsHighMpc dt X U =
      (fun Y => classicalRK4 specContinuousDeriv (dt / 4) Y U)^[4] X := by
  have hstep : ∀ Y, rk4Step droneDerivHighMpc (dt / 4) Y U =
      classicalRK4 specContinuousDeriv (dt / 4) Y U := by
    intro Y
    rw [rk4Step_eq_classicalRK4, droneDerivHighMpc_eq_spec]
  have h4 : ((4 : ℕ) : ℚ) = 4 := by norm_num
  simp only [droneDynamicsHighMpc, h4]
  rw [show List.range 4 = [0, 1, 2, 3] from rfl]
  simp only [List.foldl_cons, List.foldl_nil, hstep,
    Function.iterate_succ_apply, Function.iterate_zero_apply]

/-- C4 counterexample: constructing with the unrecognized model name
`"neural_mpc"` does not fail with a `ConfigurationError`; it crashes with an
`UnboundLocalError` on the local `F` of `_initDynamics`. -/
theorem construct_unknown_model_not_ConfigurationError :
    mpcConstruct "neural_mpc" = .error (.unboundLocalError "F") ∧
      mpcConstruct "neural_mpc" ≠ .error .configurationError := by
  refine ⟨rfl, ?_⟩
  intro h
  rw [show mpcConstruct "neural_mpc" = .error (.unboundLocalError "F") from
    rfl] at h
  simp at h

/-- C4 amended: constructing the controller with a model-variant name other
than `"high_mpc"` and `"simple_quad"` does fail at construction time, before
any solve is attempted and never silently corrected — but with an untyped
`UnboundLocalError` (the local `F` of `_initDynamics` is never assigned),
not with a `ConfigurationError`.  This also hits the `"fixed_wing"` name
that `__init__` itself recognizes. -/
theorem construct_unknown_model_raises_UnboundLocalError
    (model : String) (h1 : model ≠ "high_mpc") (h2 : model ≠ "simple_quad") :
    mpcConstruct model = .error (.unboundLocalError "F") := by
  simp [mpcConstruct, initDynamicsFDispatch, h1, h2, Except.map]

/-- Witness for the amended C4 theorem at the concrete name `"gate_mpc"`. -/
theorem construct_unknown_model_raises_UnboundLocalError_w :
    "gate_mpc" ≠ "high_mpc" ∧ "gate_mpc" ≠ "simple_quad" ∧
      mpcConstruct "gate_mpc" = .error (.unboundLocalError "F") :=
  ⟨by decide, by decide,
    construct_unknown_model_raises_UnboundLocalError "gate_mpc"
      (by decide) (by decide)⟩

/-- C9 counterexample: with the simplified model, construction does not even
succeed (it crashes with `AttributeError` on the unassigned `self.dt`), and
at a concrete state whose attitude-x entry is `1` the transition function as
written does not pass the angular components through: its output has 8
entries, not 12, and entry 3 is `0`, not `1`. -/
theorem simple_quad_not_12dim_passthrough :
    mpcConstruct "simple_quad" = .error (.attributeError "dt") ∧
    (droneDynamicsSimple ⟨fun _ => 1, fun _ => 0⟩ 1 (1 / 10)
        ⟨0, 0, 0, 1, 0, 0, 0, 0, 0, 2, 3, 4⟩ ⟨1/2, 1/2, 1/2, 1/2⟩).length ≠ 12 ∧
    (droneDynamicsSimple ⟨fun _ => 1, fun _ => 0⟩ 1 (1 / 10)
        ⟨0, 0, 0, 1, 0, 0, 0, 0, 0, 2, 3, 4⟩ ⟨1/2, 1/2, 1/2, 1/2⟩)[3]? ≠
      some 1 :=
  ⟨rfl, by decide, by decide⟩

/-- C9 amended: constructing with `"simple_quad"` fails with an untyped
`AttributeError` (the source reads `self.dt`, which is never assigned; only
`self._dt` is).  The transition function as written is a single-step
closed-form update (no RK4 refinement): position and velocity are updated
semi-implicitly from the Euler-angle-rotated scaled thrust, while the
attitude and angular-velocity slots are emitted as literal scalar zeros,
yielding an 8-entry output rather than a 12-dimensional passthrough. -/
theorem simple_quad_actual_transition (tr : TrigOracle) (mass dt : ℚ)
    (x : SimpleState) (u : QuadCtrl) :
    mpcConstruct "simple_quad" = .error (.attributeError "dt") ∧
    droneDynamicsSimple tr mass dt x u =
      [x.px + 0.5 * dt * dt * (specAccSimple tr mass x u).1 + 0.5 * dt * x.vx,
       x.py + 0.5 * dt * dt * (specAccSimple tr mass x u).2.1 + 0.5 * dt * x.vy,
       x.pz + 0.5 * dt * dt * (specAccSimple tr mass x u).2.2 + 0.5 * dt * x.vz,
       0,
       x.vx + dt * (specAccSimple tr mass x u).1,
       x.vy + dt * (specAccSimple tr mass x u).2.1,
       x.vz + dt * (specAccSimple tr mass x u).2.2,
       0] := by
  refine ⟨rfl, ?_⟩
  simp only [droneDynamicsSimple, specAccSimple, rotXf, rotYf, rotZf,
    specThrustScaled, List.cons.injEq, and_true, true_and]
  exact ⟨by ring, by ring, by ring, by ring, by ring, by ring⟩

/-- C7: the objective accumulated by the NLP-builder loop equals the
undiscounted sum over stages `k < N` of the goal cost (exactly when
`k ≥ N−1`) or else the path cost against the `k`-th reference slice, plus
at every stage the control-effort cost against the hover control. -/
theorem nlp_objective_matches_spec (N : ℕ) (X U : ℕ → List ℚ) (P : List ℚ)
    (hX : ∀ k, (X k).length = 10) :
    mpcObjSrc N X U P = mpcObjSpec N X U P := by
  unfold mpcObjSrc mpcObjSpec
  rw [foldl_add3_range]
  apply Finset.sum_congr rfl
  intro k _
  by_cases hcase : N - 1 ≤ k
  · simp only [if_pos hcase, costGoal, costU, goalSpec, add_zero]
    rw [vsub, zipWith_take_of_le (fun x y => x - y) (X (k + 1))
      (P.drop (10 + 13 * N)) 10 (le_of_eq (hX (k + 1)))]
    rfl
  · simp only [if_neg hcase, costGap, costU, refSliceSpec, pySlice, zero_add]
    rw [show 10 + 13 * (k + 1) - 3 - (10 + 13 * k) = 10 from by omega]
    ring

/-- Witness for C7 at `N = 1` with concrete stage vectors. -/
theorem nlp_objective_matches_spec_w :
    (∀ k, ((fun _ : ℕ => List.replicate 10 (1 : ℚ)) k).length = 10) ∧
    mpcObjSrc 1 (fun _ => List.replicate 10 (1 : ℚ))
        (fun _ => [1, 2, 3, 4]) ((List.range 33).map (fun n => (n : ℚ))) =
      mpcObjSpec 1 (fun _ => List.replicate 10 (1 : ℚ))
        (fun _ => [1, 2, 3, 4]) ((List.range 33).map (fun n => (n : ℚ))) :=
  ⟨by intro k; simp,
    nlp_objective_matches_spec 1 _ _ _ (by intro k; simp)⟩

/-- C8: the equality-constraint list built by the loop is exactly the
initial-condition residual `state_0 − P[0:10]` followed, for every stage
`k < N`, by the transition residual `f(state_k, control_k) − state_{k+1}`;
and both constraint bands `lbg`, `ubg` are identically zero, one zero per
constrained coordinate. -/
theorem nlp_constraints_exact (N : ℕ) (f : List ℚ → List ℚ → List ℚ)
    (X U : ℕ → List ℚ) (P : List ℚ) :
    nlpGSrc N f X U P =
      vsub (X 0) (P.take 10) ::
        (List.range N).map (fun k => vsub (f (X k) (U k)) (X (k + 1))) ∧
    lbgSrc N = List.replicate ((N + 1) * 10) 0 ∧
    ubgSrc N = List.replicate ((N + 1) * 10) 0 := by
  refine ⟨?_, ?_, ?_⟩
  · induction N with
    | zero => rfl
    | succ n ih =>
        unfold nlpGSrc at ih ⊢
        rw [List.range_succ, List.foldl_append, ih, List.map_append]
        simp
  · induction N with
    | zero => simp [lbgSrc, gMin]
    | succ n ih =>
        unfold lbgSrc at ih ⊢
        rw [List.range_succ, List.foldl_append, ih]
        simp only [List.foldl_cons, List.foldl_nil, gMin]
        rw [show (n + 1 + 1) * 10 = (n + 1) * 10 + 10 from by ring,
          List.replicate_add]
  · induction N with
    | zero => simp [ubgSrc, gMax]
    | succ n ih =>
        unfold ubgSrc at ih ⊢
        rw [List.range_succ, List.foldl_append, ih]
        simp only [List.foldl_cons, List.foldl_nil, gMax]
        rw [show (n + 1 + 1) * 10 = (n + 1) * 10 + 10 from by ring,
          List.replicate_add]

/-- C5: on every full-model solve with a well-formed reference window, the
packed parameter vector keeps the current-state head unchanged while the
orientation (quaternion) entries of all ten interior reference slices and
of the terminal goal state are forced to zero. -/
theorem highMpc_pack_zeroes_orientation (ref : List ℚ)
    (h : ref.length = 150) :
    ∃ p, highMpcParamPack ref = .ok p ∧
      p.take 10 = ref.take 10 ∧
      (∀ k, k < 10 →
        pySlice p (10 + 13 * k + 3) (10 + 13 * k + 7) = [0, 0, 0, 0]) ∧
      pySlice p 143 147 = [0, 0, 0, 0] := by
  have hm : ((ref.drop 10).take 130).length = 130 := by
    simp [List.length_take, List.length_drop, h]
  have hw : ∀ r ∈ (chunkRows 13 ((ref.drop 10).take 130)).map zeroQuatRow,
      r.length = 13 := by
    intro r hr
    simp only [List.mem_map] at hr
    obtain ⟨s, hs, rfl⟩ := hr
    exact zeroQuatRow_length s (chunkRows_length_13 _ hm s hs)
  have hcount :
      ((chunkRows 13 ((ref.drop 10).take 130)).map zeroQuatRow).length = 10 := by
    simp [chunkRows, hm]
  have hflat :
      ((chunkRows 13 ((ref.drop 10).take 130)).map zeroQuatRow).flatten.length
        = 130 := by
    rw [flatten_length_width 13 _ hw, hcount]
  have hstart : (ref.take 10).length = 10 := by simp [h]
  have hend : (ref.drop 140).length = 10 := by simp [h]
  refine ⟨_, pack_ok ref h, ?_, ?_, ?_⟩
  · rw [List.take_append_of_le_length
      (by simp only [List.length_append, hstart, hflat]; omega),
      List.take_append_of_le_length (le_of_eq hstart.symm),
      List.take_take, Nat.min_self]
  · intro k hk
    unfold pySlice
    rw [show 10 + 13 * k + 7 - (10 + 13 * k + 3) = 4 from by omega]
    rw [List.append_assoc,
      show 10 + 13 * k + 3 = (ref.take 10).length + (13 * k + 3) from by
        rw [hstart]; omega,
      List.drop_append,
      List.drop_append_of_le_length (by rw [hflat]; omega),
      ← List.drop_drop,
      flatten_drop_width 13 _ hw k]
    have hklen :
        k < ((chunkRows 13 ((ref.drop 10).take 130)).map zeroQuatRow).length :=
      by omega
    rw [List.drop_eq_getElem_cons hklen, List.flatten_cons]
    have hmem := List.getElem_mem hklen
    simp only [List.mem_map] at hmem
    obtain ⟨s, hs, hz⟩ := hmem
    rw [← hz,
      List.drop_append_of_le_length (by
        rw [zeroQuatRow_length s (chunkRows_length_13 _ hm s hs)]; omega),
      zeroQuatRow_drop3 s (by rw [chunkRows_length_13 _ hm s hs]; omega),
      List.append_assoc, List.append_assoc, take4_zeros]
  · unfold pySlice
    rw [show (147 : ℕ) - 143 = 4 from by omega,
      show (143 : ℕ) =
        (ref.take 10 ++
          ((chunkRows 13 ((ref.drop 10).take 130)).map
            zeroQuatRow).flatten).length + 3 from by
        simp only [List.length_append, hstart, hflat],
      List.drop_append, zeroQuatRow_drop3 _ (by rw [hend]; omega),
      take4_zeros]

/-- Witness for C5 at a concrete constant reference window. -/
theorem highMpc_pack_zeroes_orientation_w :
    refTwos.length = 150 ∧
      (∃ p, highMpcParamPack refTwos = .ok p ∧
        p.take 10 = refTwos.take 10 ∧
        (∀ k, k < 10 →
          pySlice p (10 + 13 * k + 3) (10 + 13 * k + 7) = [0, 0, 0, 0]) ∧
        pySlice p 143 147 = [0, 0, 0, 0]) :=
  ⟨by decide, highMpc_pack_zeroes_orientation refTwos (by decide)⟩

/-- C3 counterexample: calling solve with an empty reference window does
fail before the external solver is invoked, but with the untyped numpy
reshape `ValueError`, not with a `ConfigurationError`. -/
theorem solve_empty_ref_not_ConfigurationError :
    solveHighMpc rampSolver (nlpW0Init 10) [] = .error .valueError ∧
      solveHighMpc rampSolver (nlpW0Init 10) [] ≠
        .error .configurationError := by
  decide

/-- C3 amended: for the full model, every reference window whose length is
not exactly 150 makes solve fail before the external solver is invoked
(the result does not depend on the solver oracle at all), but with an
untyped `ValueError` raised by the hard-coded `(10, 13)` reshape, never
with a `ConfigurationError`; no separate goal-state length check exists. -/
theorem solve_malformed_ref_ValueError (ref : List ℚ)
    (h : ref.length ≠ 150) (sv : List ℚ → List ℚ → IpoptRet)
    (cache : List ℚ) :
    solveHighMpc sv cache ref = .error .valueError := by
  have hm : ¬ ((ref.length - 20) ⊓ (ref.length - 10) = 130) := by omega
  unfold solveHighMpc highMpcParamPack reshapeRows pyLastSlice
  simp [List.length_take, List.length_drop, hm]

/-- Witness for the amended C3 theorem at a length-3 reference window. -/
theorem solve_malformed_ref_ValueError_w :
    ([1, 2, 3] : List ℚ).length ≠ 150 ∧
      solveHighMpc rampSolver [] [1, 2, 3] = .error .valueError :=
  ⟨by decide, solve_malformed_ref_ValueError [1, 2, 3] (by decide)
    rampSolver []⟩

/-- C2 counterexample: with a solver oracle that reports non-convergence
(`success = false`) while returning the all-zero iterate, solve still
returns a successful result — no `OptimizationFailure` — and the warm-start
cache is overwritten with slices of the zero vector, which differ from the
prior cache. -/
theorem solver_failure_still_updates_cache :
    (failingSolver (nlpW0Init 10) refOnes).success = false ∧
    solveHighMpc failingSolver (nlpW0Init 10) refOnes =
      .ok (List.replicate 4 0, List.replicate 10 (List.replicate 14 0),
        List.replicate 150 0) ∧
    List.replicate 150 (0 : ℚ) ≠ nlpW0Init 10 := by
  decide

/-- C2 amended: solve never inspects the solver's convergence report: for
every returned vector of valid length and either value of the report flag,
it returns the sliced first control, the reshaped trajectory and — as the
new warm-start cache — the shifted slices of the returned vector; it never
raises an `OptimizationFailure` and never preserves the old cache. -/
theorem solve_ignores_convergence_report (xv : List ℚ) (st : Bool)
    (cache ref : List ℚ) (href : ref.length = 150)
    (hx : xv.length = 150) :
    solveHighMpc (fun _ _ => ⟨xv, st⟩) cache ref =
      .ok (pySlice xv 10 (10 + 4),
        chunkRows 14 (xv.take (xv.length - 10)),
        warmStartUpdate 10 4 xv) := by
  unfold solveHighMpc
  rw [pack_ok ref href]
  simp [reshapeInfer, hx, List.length_take]

/-- Witness for the amended C2 theorem with a non-convergent report. -/
theorem solve_ignores_convergence_report_w :
    refOnes.length = 150 ∧ refTwos.length = 150 ∧
      solveHighMpc (fun _ _ => ⟨refTwos, false⟩) [] refOnes =
        .ok (pySlice refTwos 10 (10 + 4),
          chunkRows 14 (refTwos.take (refTwos.length - 10)),
          warmStartUpdate 10 4 refTwos) :=
  ⟨by decide, by decide,
    solve_ignores_convergence_report refTwos false [] refOnes
      (by decide) (by decide)⟩

/-- C1 counterexample: a successful solve whose solution is the ramp vector
`0, 1, …, 149` overwrites the cache with a vector whose stage-1 block equals
the solution's stage-1 block, not the stage-2 block, even though
`1 < N − 1 = 9`: the cache is not the solution shifted by one stage. -/
theorem warm_start_shift_counterexample :
    solveHighMpc rampSolver (nlpW0Init 10) refOnes =
      .ok (pySlice rampSol 10 (10 + 4),
        chunkRows 14 (rampSol.take (rampSol.length - 10)),
        warmStartUpdate 10 4 rampSol) ∧
    (1 : ℕ) < 10 - 1 ∧
    stageBlock 10 4 1 (warmStartUpdate 10 4 rampSol) ≠
      stageBlock 10 4 2 rampSol := by
  decide

/-- C1 amended: after a successful solve the cache equals the previous
solution's stage-1 block prepended to the previous solution with its
stage-0 block removed: cached stage 0 equals the solution's stage 1;
cached stages `1 ≤ i ≤ N−1` equal the solution's same stage `i` (not
`i+1`); the final state block is the solution's final state; and the cache
has the full decision-vector length, so no stage is left undefined. -/
theorem warm_start_actual_update (solX : List ℚ) (h : solX.length = 150) :
    (warmStartUpdate 10 4 solX).length = solX.length ∧
    stageBlock 10 4 0 (warmStartUpdate 10 4 solX) = stageBlock 10 4 1 solX ∧
    (∀ i, 1 ≤ i → i ≤ 9 →
      stageBlock 10 4 i (warmStartUpdate 10 4 solX) =
        stageBlock 10 4 i solX) ∧
    (warmStartUpdate 10 4 solX).drop 140 = solX.drop 140 := by
  have hupd : warmStartUpdate 10 4 solX =
      (solX.drop 14).take 14 ++ solX.drop 14 := rfl
  have hblock : ∀ i w, stageBlock 10 4 i w = (w.drop (i * 14)).take 14 := by
    intro i w
    show (w.drop (i * (10 + 4))).take ((i + 1) * (10 + 4) - i * (10 + 4)) = _
    rw [show (i + 1) * (10 + 4) - i * (10 + 4) = 14 from by omega,
      show i * (10 + 4) = i * 14 from by norm_num]
  have hA : ((solX.drop 14).take 14).length = 14 := by
    simp [List.length_take, List.length_drop, h]
  refine ⟨?_, ?_, ?_, ?_⟩
  · rw [hupd]
    simp only [List.length_append, List.length_take, List.length_drop, h]
    omega
  · rw [hblock, hblock, hupd]
    simp only [Nat.zero_mul, List.drop_zero, Nat.one_mul]
    rw [List.take_append_of_le_length (le_of_eq hA.symm),
      List.take_take, Nat.min_self]
  · intro i h1 h9
    rw [hblock, hblock, hupd]
    have key : (((solX.drop 14).take 14) ++ solX.drop 14).drop (i * 14) =
        solX.drop (i * 14) := by
      rw [show i * 14 = ((solX.drop 14).take 14).length + 14 * (i - 1) from by
          rw [hA]; omega,
        List.drop_append, List.drop_drop]
      congr 1
      omega
    rw [key]
  · rw [hupd]
    have key2 : (((solX.drop 14).take 14) ++ solX.drop 14).drop 140 =
        solX.drop 140 := by
      rw [show (140 : ℕ) = ((solX.drop 14).take 14).length + 126 from by
          rw [hA],
        List.drop_append, List.drop_drop, hA]
    rw [key2]

/-- Witness for the amended C1 theorem at the ramp solution vector. -/
theorem warm_start_actual_update_w :
    rampSol.length = 150 ∧
      ((warmStartUpdate 10 4 rampSol).length = rampSol.length ∧
       stageBlock 10 4 0 (warmStartUpdate 10 4 rampSol) =
         stageBlock 10 4 1 rampSol ∧
       (∀ i, 1 ≤ i → i ≤ 9 →
         stageBlock 10 4 i (warmStartUpdate 10 4 rampSol) =
           stageBlock 10 4 i rampSol) ∧
       (warmStartUpdate 10 4 rampSol).drop 140 = rampSol.drop 140) :=
  ⟨by decide, warm_start_actual_update rampSol (by decide)⟩

end MpcSpec
